import Mathlib

/-!
Verification of the VRTOS kernel sources (scheduler, synchronization
primitives, tick arithmetic, task creation) against its specification.

The definitions below are a shallow embedding of the C sources:
machine integers become Nat with explicit reduction modulo 2^32 (or 2^16)
where C overflow semantics matter, TCB pointers become task records
identified by a numeric id, intrusive linked lists become Lean lists,
and fallible operations return status codes or Option.
-/

namespace VRTOS

/-! ## Basic types, from include/VRTOS/rtos_types.h -/

/-- Modulus of a 32-bit unsigned value (rtos_tick_t, uint32_t counters). -/
def UINT32_MOD : Nat := 4294967296

/-- Status codes rtos_status_t (rtos_types.h). C enum starting at 0. -/
inductive RtosStatus where
  | success
  | errInvalidParam
  | errNoMemory
  | errTaskNotFound
  | errInvalidState
  | errTimeout
  | errFull
  | errEmpty
  | errGeneral
deriving DecidableEq, Repr

/-- Numeric value of each rtos_status_t enumerator. -/
def RtosStatus.code : RtosStatus → Nat
  | .success => 0
  | .errInvalidParam => 1
  | .errNoMemory => 2
  | .errTaskNotFound => 3
  | .errInvalidState => 4
  | .errTimeout => 5
  | .errFull => 6
  | .errEmpty => 7
  | .errGeneral => 8

/-- Task states rtos_task_state_t (rtos_types.h). -/
inductive TaskState where
  | ready
  | running
  | blocked
  | suspended
  | deleted
deriving DecidableEq, Repr

/-- Synchronization object kinds rtos_sync_type_t (rtos_types.h). -/
inductive SyncType where
  | none
  | mutex
  | semaphore
  | queue
deriving DecidableEq, Repr

/-- Task control block (task_priv.h), restricted to the fields the
synchronization and scheduling claims read or write.  A TCB pointer is
modelled by the numeric id; distinct tasks have distinct ids. -/
structure Tcb where
  id : Nat
  priority : Nat
  basePriority : Nat
  state : TaskState
  blockedOn : Option Nat
  blockedOnType : SyncType
deriving DecidableEq, Repr

/-! ## Timeout constants (mutex.h, semaphore.h, rtos_types.h) -/

/-- RTOS_MAX_WAIT, mutex.h: ((rtos_tick_t)(-1)) = 0xFFFFFFFF. -/
def RTOS_MAX_WAIT : Nat := UINT32_MOD - 1

/-- RTOS_NO_WAIT, mutex.h. -/
def RTOS_NO_WAIT : Nat := 0

/-- RTOS_SEM_MAX_WAIT, semaphore.h: 0xFFFFFFFFU. -/
def RTOS_SEM_MAX_WAIT : Nat := 4294967295

/-- RTOS_SEM_NO_WAIT, semaphore.h. -/
def RTOS_SEM_NO_WAIT : Nat := 0

/-- RTOS_MAX_DELAY, rtos_types.h: ((rtos_tick_t)-1). -/
def RTOS_MAX_DELAY : Nat := UINT32_MOD - 1

/-! ## Per-API status aliases (mutex.h, semaphore.h enums map onto rtos_status_t) -/

def RTOS_MUTEX_OK : RtosStatus := RtosStatus.success

def RTOS_MUTEX_ERR_INVALID : RtosStatus := RtosStatus.errInvalidParam

def RTOS_MUTEX_ERR_NO_MEM : RtosStatus := RtosStatus.errNoMemory

def RTOS_MUTEX_ERR_TIMEOUT : RtosStatus := RtosStatus.errTimeout

def RTOS_MUTEX_ERR_GENERAL : RtosStatus := RtosStatus.errGeneral

def RTOS_SEM_OK : RtosStatus := RtosStatus.success

def RTOS_SEM_ERR_INVALID : RtosStatus := RtosStatus.errInvalidParam

def RTOS_SEM_ERR_TIMEOUT : RtosStatus := RtosStatus.errTimeout

/-- RTOS_SEM_ERR_OVERFLOW maps onto RTOS_ERROR_GENERAL in semaphore.h. -/
def RTOS_SEM_ERR_OVERFLOW : RtosStatus := RtosStatus.errGeneral

/-! ## Kernel task-state helper (kernel.c)

rtos_kernel_task_unblock checks state == BLOCKED, removes the task from
the delayed list and calls rtos_kernel_task_ready, whose net effect on
the TCB is state := READY.  The function below is the TCB-level effect. -/

def rtos_kernel_task_unblock (t : Tcb) : Tcb :=
  if t.state = TaskState.blocked then { t with state := TaskState.ready } else t

/-! ## Synchronization wait lists

mutex.c, semaphore.c and queue.c each carry their own copy of the
priority-ordered singly-linked wait-list helpers.  Each insertion walks
the list while current->priority >= task->priority and inserts after
the walked entries; removal unlinks the first node whose identity
matches; pop detaches the head and clears its blocked_on fields. -/

/-- Insertion walk of mutex_add_to_waiting_list (mutex.c). -/
def mutex_add_go : List Tcb → Tcb → List Tcb
  | [], t => [t]
  | c :: rest, t =>
    if t.priority ≤ c.priority then c :: mutex_add_go rest t else t :: c :: rest

/-- mutex_add_to_waiting_list (mutex.c): sets blocked_on to the mutex and
blocked_on_type to MUTEX, then inserts in priority order, highest first,
after all entries of greater or equal priority. -/
def mutex_add_to_waiting_list (mid : Nat) (l : List Tcb) (t : Tcb) : List Tcb :=
  mutex_add_go l { t with blockedOn := some mid, blockedOnType := SyncType.mutex }

/-- mutex_remove_from_waiting_list (mutex.c), list effect: unlink the
first node with the given task identity. -/
def mutex_remove_from_waiting_list : List Tcb → Nat → List Tcb
  | [], _ => []
  | c :: rest, tid =>
    if c.id = tid then rest else c :: mutex_remove_from_waiting_list rest tid

/-- mutex_pop_highest_priority_waiter (mutex.c): detach the head (highest
priority by the ordered insertion) and clear its blocked_on fields. -/
def mutex_pop_highest_priority_waiter : List Tcb → Option Tcb × List Tcb
  | [] => (none, [])
  | w :: rest =>
    (some { w with blockedOn := none, blockedOnType := SyncType.none }, rest)

/-- Insertion walk of sem_add_to_waiting_list (semaphore.c). -/
def sem_add_go : List Tcb → Tcb → List Tcb
  | [], t => [t]
  | c :: rest, t =>
    if t.priority ≤ c.priority then c :: sem_add_go rest t else t :: c :: rest

/-- sem_add_to_waiting_list (semaphore.c). -/
def sem_add_to_waiting_list (sid : Nat) (l : List Tcb) (t : Tcb) : List Tcb :=
  sem_add_go l { t with blockedOn := some sid, blockedOnType := SyncType.semaphore }

/-- sem_remove_from_waiting_list (semaphore.c), list effect. -/
def sem_remove_from_waiting_list : List Tcb → Nat → List Tcb
  | [], _ => []
  | c :: rest, tid =>
    if c.id = tid then rest else c :: sem_remove_from_waiting_list rest tid

/-- sem_pop_highest_priority_waiter (semaphore.c). -/
def sem_pop_highest_priority_waiter : List Tcb → Option Tcb × List Tcb
  | [] => (none, [])
  | w :: rest =>
    (some { w with blockedOn := none, blockedOnType := SyncType.none }, rest)

/-- Insertion walk of queue_add_to_waiting_list (queue.c). -/
def queue_add_go : List Tcb → Tcb → List Tcb
  | [], t => [t]
  | c :: rest, t =>
    if t.priority ≤ c.priority then c :: queue_add_go rest t else t :: c :: rest

/-- queue_add_to_waiting_list (queue.c): blocked_on is the queue, type QUEUE. -/
def queue_add_to_waiting_list (qid : Nat) (l : List Tcb) (t : Tcb) : List Tcb :=
  queue_add_go l { t with blockedOn := some qid, blockedOnType := SyncType.queue }

/-- queue_remove_from_waiting_list (queue.c), list effect. -/
def queue_remove_from_waiting_list : List Tcb → Nat → List Tcb
  | [], _ => []
  | c :: rest, tid =>
    if c.id = tid then rest else c :: queue_remove_from_waiting_list rest tid

/-- queue_pop_highest_priority_waiter (queue.c). -/
def queue_pop_highest_priority_waiter : List Tcb → Option Tcb × List Tcb
  | [] => (none, [])
  | w :: rest =>
    (some { w with blockedOn := none, blockedOnType := SyncType.none }, rest)

/-- A wait list is ordered by task priority, highest first (the invariant
established by the ordered insertions above). -/
def WaitListSorted (l : List Tcb) : Prop :=
  List.Pairwise (fun a b => b.priority ≤ a.priority) l

instance (l : List Tcb) : Decidable (WaitListSorted l) := by
  unfold WaitListSorted
  infer_instance

/-! ## Mutex (mutex.c, mutex.h) -/

/-- rtos_mutex_t (mutex.h): owner TCB pointer, singly-linked waiting
list, recursion depth (uint8_t). -/
structure Mutex where
  owner : Option Nat
  waitingList : List Tcb
  lockCount : Nat
deriving DecidableEq, Repr

/-- rtos_mutex_init (mutex.c): owner = NULL, waiting_list = NULL,
lock_count = 0, returning RTOS_MUTEX_OK (non-NULL argument case). -/
def rtos_mutex_init (_m : Mutex) : RtosStatus × Mutex :=
  (RTOS_MUTEX_OK, { owner := none, waitingList := [], lockCount := 0 })

/-- Outcome of the pre-suspension portion of a blocking call: either the
call completes immediately, or the caller has been enqueued and blocks
forever (infinite-wait branch, no delayed-list entry is created), or the
caller blocks with a timed wait handed to rtos_kernel_task_block. -/
inductive MutexLockOutcome where
  | completed (status : RtosStatus) (m : Mutex)
  | blockedForever (m : Mutex) (caller : Tcb)
  | blockedTimed (m : Mutex) (caller : Tcb) (delayTicks : Nat)
deriving DecidableEq, Repr

/-- rtos_mutex_lock (mutex.c) up to its suspension point.  Fast path when
free; recursive lock bounded at 255; RTOS_NO_WAIT fails with timeout;
otherwise the caller is enqueued (mutex_add_to_waiting_list) and either
blocks forever (timeout == RTOS_MAX_WAIT: state := BLOCKED, yield, no
delayed-list entry) or is handed to rtos_kernel_task_block with the
timeout.  The mutex_apply_priority_inheritance call on the blocking path
only boosts priorities of owner-chain TCBs; it does not change any field
of the mutex itself, so it does not appear in the mutex-state transition. -/
def rtos_mutex_lock (mid : Nat) (m : Mutex) (currentTask : Tcb) (timeoutTicks : Nat) :
    MutexLockOutcome :=
  if m.owner = Option.none then
    MutexLockOutcome.completed RTOS_MUTEX_OK
      { m with owner := some currentTask.id, lockCount := 1 }
  else if m.owner = some currentTask.id then
    if m.lockCount < 255 then
      MutexLockOutcome.completed RTOS_MUTEX_OK { m with lockCount := m.lockCount + 1 }
    else
      MutexLockOutcome.completed RTOS_MUTEX_ERR_GENERAL m
  else if timeoutTicks = RTOS_NO_WAIT then
    MutexLockOutcome.completed RTOS_MUTEX_ERR_TIMEOUT m
  else
    let m2 := { m with waitingList := mutex_add_to_waiting_list mid m.waitingList currentTask }
    let waiter := { currentTask with blockedOn := some mid, blockedOnType := SyncType.mutex }
    if timeoutTicks = RTOS_MAX_WAIT then
      MutexLockOutcome.blockedForever m2 { waiter with state := TaskState.blocked }
    else
      MutexLockOutcome.blockedTimed m2 waiter timeoutTicks

/-- Delay handed to rtos_kernel_task_block by rtos_mutex_lock: only the
timed-wait outcome creates a delayed-list entry. -/
def mutex_lock_delay_request : MutexLockOutcome → Option Nat
  | MutexLockOutcome.blockedTimed _ _ d => some d
  | _ => none

/-- Resumption check of rtos_mutex_lock (mutex.c, after the block): if
blocked_on still points at this mutex the wait timed out, so the task
removes itself from the wait list and returns the timeout error;
otherwise a peer woke it and the lock call returns RTOS_MUTEX_OK. -/
def mutex_lock_resume (mid : Nat) (m : Mutex) (currentTask : Tcb) : RtosStatus × Mutex :=
  if currentTask.blockedOn = some mid then
    (RTOS_MUTEX_ERR_TIMEOUT,
     { m with waitingList := mutex_remove_from_waiting_list m.waitingList currentTask.id })
  else
    (RTOS_MUTEX_OK, m)

/-- mutex_restore_priority (mutex.c): reset priority to base_priority
(the C guards on inequality; the net effect is the same). -/
def mutex_restore_priority (t : Tcb) : Tcb :=
  { t with priority := t.basePriority }

/-- Result of rtos_mutex_unlock: status, mutex after the call, the
caller TCB after the call (priority possibly restored), and the waiter
that was popped and unblocked, if any. -/
structure MutexUnlockResult where
  status : RtosStatus
  mtx : Mutex
  caller : Tcb
  woken : Option Tcb
deriving DecidableEq, Repr

/-- rtos_mutex_unlock (mutex.c).  Non-owner callers (pointer comparison
against the owner) fail with RTOS_MUTEX_ERR_INVALID and nothing changes.
A recursive unlock decrements lock_count.  A full unlock restores the
caller priority, then transfers ownership to the popped
highest-priority waiter with lock_count = 1 and unblocks it, or, with
no waiters, marks the mutex free. -/
def rtos_mutex_unlock (m : Mutex) (currentTask : Tcb) : MutexUnlockResult :=
  if m.owner ≠ some currentTask.id then
    { status := RTOS_MUTEX_ERR_INVALID, mtx := m, caller := currentTask, woken := none }
  else if 1 < m.lockCount then
    { status := RTOS_MUTEX_OK, mtx := { m with lockCount := m.lockCount - 1 },
      caller := currentTask, woken := none }
  else
    let caller2 := mutex_restore_priority currentTask
    match mutex_pop_highest_priority_waiter m.waitingList with
    | (some w, rest) =>
      { status := RTOS_MUTEX_OK
        , mtx := { m with owner := some w.id, lockCount := 1, waitingList := rest }
        , caller := caller2
        , woken := some (rtos_kernel_task_unblock w) }
    | (none, _) =>
      { status := RTOS_MUTEX_OK, mtx := { m with owner := none, lockCount := 0 },
        caller := caller2, woken := none }

/-! ## Counting semaphore (semaphore.c, semaphore.h) -/

/-- rtos_semaphore_t (semaphore.h). -/
structure Semaphore where
  count : Nat
  maxCount : Nat
  waitingList : List Tcb
deriving DecidableEq, Repr

/-- rtos_semaphore_init (semaphore.c): rejects initial_count above a
nonzero max_count, otherwise installs the fields. -/
def rtos_semaphore_init (initialCount maxCount : Nat) : RtosStatus × Option Semaphore :=
  if maxCount ≠ 0 ∧ maxCount < initialCount then
    (RTOS_SEM_ERR_INVALID, none)
  else
    (RTOS_SEM_OK, some { count := initialCount, maxCount := maxCount, waitingList := [] })

/-- Outcome of the pre-suspension portion of rtos_semaphore_wait. -/
inductive SemWaitOutcome where
  | completed (status : RtosStatus) (s : Semaphore)
  | blockedForever (s : Semaphore) (caller : Tcb)
  | blockedTimed (s : Semaphore) (caller : Tcb) (delayTicks : Nat)
deriving DecidableEq, Repr

/-- rtos_semaphore_wait (semaphore.c) up to its suspension point: fast
path decrements a positive count; RTOS_SEM_NO_WAIT fails with timeout;
otherwise enqueue and block (forever without a delayed-list entry when
timeout == RTOS_SEM_MAX_WAIT, else timed via rtos_kernel_task_block). -/
def rtos_semaphore_wait (sid : Nat) (s : Semaphore) (currentTask : Tcb) (timeoutTicks : Nat) :
    SemWaitOutcome :=
  if 0 < s.count then
    SemWaitOutcome.completed RTOS_SEM_OK { s with count := s.count - 1 }
  else if timeoutTicks = RTOS_SEM_NO_WAIT then
    SemWaitOutcome.completed RTOS_SEM_ERR_TIMEOUT s
  else
    let s2 := { s with waitingList := sem_add_to_waiting_list sid s.waitingList currentTask }
    let waiter := { currentTask with blockedOn := some sid, blockedOnType := SyncType.semaphore }
    if timeoutTicks = RTOS_SEM_MAX_WAIT then
      SemWaitOutcome.blockedForever s2 { waiter with state := TaskState.blocked }
    else
      SemWaitOutcome.blockedTimed s2 waiter timeoutTicks

/-- Delay handed to rtos_kernel_task_block by rtos_semaphore_wait. -/
def sem_wait_delay_request : SemWaitOutcome → Option Nat
  | SemWaitOutcome.blockedTimed _ _ d => some d
  | _ => none

/-- Resumption check of rtos_semaphore_wait (semaphore.c). -/
def sem_wait_resume (sid : Nat) (s : Semaphore) (currentTask : Tcb) : RtosStatus × Semaphore :=
  if currentTask.blockedOn = some sid then
    (RTOS_SEM_ERR_TIMEOUT,
     { s with waitingList := sem_remove_from_waiting_list s.waitingList currentTask.id })
  else
    (RTOS_SEM_OK, s)

/-- rtos_semaphore_signal (semaphore.c): pop a waiter first and wake it
without touching count (handoff); with no waiter, a nonzero max_count
already reached fails with overflow; otherwise count is incremented
(uint32_t arithmetic). -/
def rtos_semaphore_signal (s : Semaphore) : RtosStatus × Semaphore × Option Tcb :=
  match sem_pop_highest_priority_waiter s.waitingList with
  | (some w, rest) =>
    (RTOS_SEM_OK, { s with waitingList := rest }, some (rtos_kernel_task_unblock w))
  | (none, _) =>
    if s.maxCount ≠ 0 ∧ s.maxCount ≤ s.count then
      (RTOS_SEM_ERR_OVERFLOW, s, none)
    else
      (RTOS_SEM_OK, { s with count := (s.count + 1) % UINT32_MOD }, none)

/-! ## Bounded queue (queue.c, queue_priv.h) -/

/-- rtos_queue_t: circular buffer control block.  read_ptr and write_ptr
are modelled as byte offsets from the buffer start (read_ptr == buffer
corresponds to readOfs = 0). -/
structure Queue where
  length : Nat
  itemSize : Nat
  count : Nat
  readOfs : Nat
  writeOfs : Nat
  senderWaitList : List Tcb
  receiverWaitList : List Tcb
deriving DecidableEq, Repr

/-- Deposit step of rtos_queue_send (label copy_data in queue.c): copy
the item at write_ptr, advance the write pointer with wraparound at
buffer + length*item_size, increment count, then pop and unblock a
waiting receiver if one exists. -/
def queue_send_deposit (q : Queue) : Queue × Option Tcb :=
  let w := q.writeOfs + q.itemSize
  let q2 := { q with writeOfs := if q.length * q.itemSize ≤ w then 0 else w,
                     count := q.count + 1 }
  match queue_pop_highest_priority_waiter q2.receiverWaitList with
  | (some r, rest) =>
    ({ q2 with receiverWaitList := rest }, some (rtos_kernel_task_unblock r))
  | (none, _) => (q2, none)

/-- Outcome of the pre-suspension portion of rtos_queue_send. -/
inductive QueueSendOutcome where
  | completed (status : RtosStatus) (q : Queue) (woken : Option Tcb)
  | blockedForever (q : Queue) (caller : Tcb)
  | blockedTimed (q : Queue) (caller : Tcb) (delayTicks : Nat)
deriving DecidableEq, Repr

/-- rtos_queue_send (queue.c) up to its suspension point: fast path
deposits when count < length; timeout 0 fails with FULL; otherwise the
caller joins the sender wait list and blocks (forever when timeout ==
RTOS_MAX_DELAY — that branch also removes the caller from the ready list
and creates no delayed-list entry — else timed via rtos_kernel_task_block). -/
def rtos_queue_send (qid : Nat) (q : Queue) (currentTask : Tcb) (timeoutTicks : Nat) :
    QueueSendOutcome :=
  if q.count < q.length then
    let d := queue_send_deposit q
    QueueSendOutcome.completed RtosStatus.success d.1 d.2
  else if timeoutTicks = 0 then
    QueueSendOutcome.completed RtosStatus.errFull q none
  else
    let q2 := { q with senderWaitList := queue_add_to_waiting_list qid q.senderWaitList currentTask }
    let waiter := { currentTask with blockedOn := some qid, blockedOnType := SyncType.queue }
    if timeoutTicks = RTOS_MAX_DELAY then
      QueueSendOutcome.blockedForever q2 { waiter with state := TaskState.blocked }
    else
      QueueSendOutcome.blockedTimed q2 waiter timeoutTicks

/-- Delay handed to rtos_kernel_task_block by rtos_queue_send. -/
def queue_send_delay_request : QueueSendOutcome → Option Nat
  | QueueSendOutcome.blockedTimed _ _ d => some d
  | _ => none

/-- Resumption check of rtos_queue_send (queue.c): blocked_on still set
means timeout (self-removal from the sender wait list); otherwise the
defensive full re-check, then the shared copy_data path. -/
def rtos_queue_send_resume (qid : Nat) (q : Queue) (currentTask : Tcb) :
    RtosStatus × Queue × Option Tcb :=
  if currentTask.blockedOn = some qid then
    (RtosStatus.errTimeout,
     { q with senderWaitList := queue_remove_from_waiting_list q.senderWaitList currentTask.id },
     none)
  else if q.length ≤ q.count then
    (RtosStatus.errFull, q, none)
  else
    let d := queue_send_deposit q
    (RtosStatus.success, d.1, d.2)

/-- Wake loop of rtos_queue_reset (queue.c): repeatedly pop the sender
wait list head (clearing its blocked_on fields) and unblock it, until
the list is empty.  Returns the unblocked tasks in pop order. -/
def queue_reset_wake_all : List Tcb → List Tcb
  | [] => []
  | w :: rest =>
    rtos_kernel_task_unblock { w with blockedOn := none, blockedOnType := SyncType.none }
      :: queue_reset_wake_all rest

/-- rtos_queue_reset (queue.c): count := 0, read and write pointers back
to the buffer start, wake every waiting sender; the receiver wait list
is not touched. -/
def rtos_queue_reset (q : Queue) : RtosStatus × Queue × List Tcb :=
  (RtosStatus.success,
   { q with count := 0, readOfs := 0, writeOfs := 0, senderWaitList := [] },
   queue_reset_wake_all q.senderWaitList)

/-! ## Tick arithmetic (timer_list.c, preemptive_sp.c)

rtos_tick_t is uint32_t.  Ticks are Nats below UINT32_MOD; uint32_t
subtraction is reduction modulo 2^32 and a cast to int32_t reinterprets
values at or above 2^31 as negative. -/

/-- Result of the uint32_t subtraction a - b. -/
def sub32 (a b : Nat) : Nat :=
  (a + (UINT32_MOD - b % UINT32_MOD)) % UINT32_MOD

/-- Reinterpretation of a uint32_t value as int32_t. -/
def toInt32 (n : Nat) : Int :=
  if n % UINT32_MOD < 2147483648 then ((n % UINT32_MOD : Nat) : Int)
  else ((n % UINT32_MOD : Nat) : Int) - 4294967296

/-- time_before (timer_list.c): ((int32_t)(t1 - t2) < 0), true when t1
is before t2 with wraparound handling. -/
def time_before (t1 t2 : Nat) : Bool :=
  decide (toInt32 (sub32 t1 t2) < 0)

/-- Expiry test of rtos_timer_tick (timer_list.c line 111):
((int32_t)(expiry_time - current_tick) <= 0). -/
def timer_expired_check (expiryTime currentTick : Nat) : Bool :=
  decide (toInt32 (sub32 expiryTime currentTick) ≤ 0)

/-- Head scan of rtos_timer_tick over the sorted active list: expired
timers (by timer_expired_check) are detached from the front in order,
and the walk stops at the first timer that is not expired.  Timers are
represented by their expiry_time; this captures the expiry comparisons
of the loop for timers whose callbacks leave the list alone. -/
def rtos_timer_tick_expired_split (currentTick : Nat) : List Nat → List Nat × List Nat
  | [] => ([], [])
  | e :: rest =>
    if timer_expired_check e currentTick then
      let p := rtos_timer_tick_expired_split currentTick rest
      (e :: p.1, p.2)
    else ([], e :: rest)

/-- timer_insert_active_list (timer_list.c): insert into the active list
ordered by time_before on expiry_time. -/
def timer_insert_active_list : List Nat → Nat → List Nat
  | [], e => [e]
  | h :: rest, e =>
    if time_before e h then e :: h :: rest else h :: timer_insert_active_list rest e

/-- One entry of the scheduler delayed list: a task id together with its
absolute wakeup tick delay_until. -/
structure DelayedEntry where
  id : Nat
  delayUntil : Nat
deriving DecidableEq, Repr

/-- Insertion walk of preemptive_sp_add_to_delayed_list_internal
(preemptive_sp.c): walk while current->delay_until <= task->delay_until
(plain uint32_t comparison) and insert after the walked entries. -/
def preemptive_sp_delayed_insert_go : List DelayedEntry → DelayedEntry → List DelayedEntry
  | [], e => [e]
  | c :: rest, e =>
    if c.delayUntil ≤ e.delayUntil then c :: preemptive_sp_delayed_insert_go rest e
    else e :: c :: rest

/-- preemptive_sp_add_to_delayed_list_internal (preemptive_sp.c):
delay_until = current tick + delay (uint32_t addition), then time-sorted
insertion. -/
def preemptive_sp_add_to_delayed_list (currentTick : Nat) (delayed : List DelayedEntry)
    (tid delayTicks : Nat) : List DelayedEntry :=
  preemptive_sp_delayed_insert_go delayed
    { id := tid, delayUntil := (currentTick + delayTicks) % UINT32_MOD }

/-- Wakeup test of preemptive_sp_update_delayed_tasks_internal
(preemptive_sp.c line 218): current_tick >= task->delay_until, a plain
unsigned 32-bit comparison.  cooperative.c line 217 and round_robin.c
line 225 use the identical comparison. -/
def delayed_task_expired_check (currentTick delayUntil : Nat) : Bool :=
  decide (delayUntil ≤ currentTick)

/-- preemptive_sp_update_delayed_tasks_internal (preemptive_sp.c): walk
the time-sorted delayed list from the head, moving expired tasks (by
delayed_task_expired_check) to the ready list, stopping at the first
task not yet expired.  Returns (tasks moved to ready, remaining list). -/
def preemptive_sp_update_delayed_tasks (currentTick : Nat) :
    List DelayedEntry → List DelayedEntry × List DelayedEntry
  | [] => ([], [])
  | e :: rest =>
    if delayed_task_expired_check currentTick e.delayUntil then
      let p := preemptive_sp_update_delayed_tasks currentTick rest
      (e :: p.1, p.2)
    else ([], e :: rest)

/-! ## Kernel blocking helper (kernel.c) -/

/-- rtos_kernel_task_block (kernel.c): only RUNNING or READY tasks may
block; the task becomes BLOCKED, leaves the ready list, and joins the
delayed list exactly when delay_ticks > 0. -/
def rtos_kernel_task_block (currentTick : Nat) (delayed : List DelayedEntry)
    (t : Tcb) (delayTicks : Nat) : Tcb × List DelayedEntry :=
  if t.state = TaskState.running ∨ t.state = TaskState.ready then
    ({ t with state := TaskState.blocked },
     if 0 < delayTicks then
       preemptive_sp_add_to_delayed_list currentTick delayed t.id delayTicks
     else delayed)
  else
    (t, delayed)

/-! ## Scheduler manager (scheduler.c, scheduler.h) -/

/-- rtos_scheduler_type_t (scheduler.h). -/
inductive SchedulerType where
  | preemptiveSP
  | cooperative
  | roundRobin
deriving DecidableEq, Repr

/-- Numeric values of rtos_scheduler_type_t. -/
def SchedulerType.code : SchedulerType → Nat
  | .preemptiveSP => 0
  | .cooperative => 1
  | .roundRobin => 2

/-- The scheduler vtable constants defined in the discipline sources:
preemptive_sp_scheduler (preemptive_sp.c), cooperative_scheduler
(cooperative.c) and round_robin_scheduler (round_robin.c) all exist and
are complete interface implementations. -/
inductive SchedulerVtable where
  | preemptive_sp_scheduler
  | cooperative_scheduler
  | round_robin_scheduler
deriving DecidableEq, Repr

/-- g_scheduler_registry (scheduler.c lines 32-39): the registry holds
entries for PREEMPTIVE_SP and COOPERATIVE only; round_robin_scheduler
is not registered. -/
def g_scheduler_registry : List (SchedulerType × SchedulerVtable) :=
  [(SchedulerType.preemptiveSP, SchedulerVtable.preemptive_sp_scheduler),
   (SchedulerType.cooperative, SchedulerVtable.cooperative_scheduler)]

/-- rtos_scheduler_find_interface (scheduler.c): linear registry scan. -/
def rtos_scheduler_find_interface (schedulerType : SchedulerType) : Option SchedulerVtable :=
  match g_scheduler_registry.find? (fun p => p.1 == schedulerType) with
  | some p => some p.2
  | none => none

/-- rtos_scheduler_instance_t (scheduler.h): the fields rtos_scheduler_init
reads and writes. -/
structure SchedulerInstance where
  vtable : Option SchedulerVtable
  stype : SchedulerType
  isInit : Bool
deriving DecidableEq, Repr

/-- The static initial value of g_scheduler_instance (scheduler.c). -/
def g_scheduler_instance_reset : SchedulerInstance :=
  { vtable := none, stype := SchedulerType.cooperative, isInit := false }

/-- Status returned by each discipline init through the vtable:
preemptive_sp_init, cooperative_init and round_robin_init all clear
their private data and return RTOS_SUCCESS for a non-NULL instance. -/
def scheduler_vtable_init_status (_vt : SchedulerVtable) : RtosStatus :=
  RtosStatus.success

/-- rtos_scheduler_init (scheduler.c): fails InvalidState when already
set up; fails InvalidParam when the registry scan finds no interface for
the requested type; otherwise installs the vtable, runs the discipline
init and marks the instance live (clearing the vtable again on a
discipline-init failure). -/
def rtos_scheduler_init (inst : SchedulerInstance) (schedulerType : SchedulerType) :
    RtosStatus × SchedulerInstance :=
  if inst.isInit then
    (RtosStatus.errInvalidState, inst)
  else
    match rtos_scheduler_find_interface schedulerType with
    | none => (RtosStatus.errInvalidParam, inst)
    | some vt =>
      let st := scheduler_vtable_init_status vt
      if st = RtosStatus.success then
        (RtosStatus.success, { vtable := some vt, stype := schedulerType, isInit := true })
      else
        (st, { vtable := none, stype := schedulerType, isInit := false })

/-! ## Task creation: stack allocation and canary (task.c, memory.c, port.c)

Addresses are byte offsets from the start of the static heap g_heap_memory
(memory.c), which the allocator keeps 8-byte aligned. -/

/-- RTOS_TOTAL_HEAP_SIZE (config.h). -/
def RTOS_TOTAL_HEAP_SIZE : Nat := 16384

/-- RTOS_DEFAULT_TASK_STACK_SIZE (config.h). -/
def RTOS_DEFAULT_TASK_STACK_SIZE : Nat := 1024

/-- RTOS_MINIMUM_TASK_STACK_SIZE (config.h). -/
def RTOS_MINIMUM_TASK_STACK_SIZE : Nat := 128

/-- PORT_STACK_CANARY_VALUE (port_common.h): the fixed canary word. -/
def RTOS_STACK_CANARY_VALUE : Nat := 0xC0DEC0DE

/-- ALIGN_UP(v, 8) (utils.h): (v + 7) & ~7. -/
def ALIGN8_UP_VALUE (v : Nat) : Nat := (v + 7) / 8 * 8

/-- ALIGN_DOWN(v, 8) (utils.h): v & ~7. -/
def ALIGN8_DOWN_VALUE (v : Nat) : Nat := v / 8 * 8

/-- rtos_malloc (memory.c): bump allocator over a static heap; the size
is aligned up to 8, allocation fails when the heap would overflow.
Returns (block offset, new heap index). -/
def rtos_malloc (heapIndex size : Nat) : Option (Nat × Nat) :=
  let sizeAligned := ALIGN8_UP_VALUE size
  if RTOS_TOTAL_HEAP_SIZE < heapIndex + sizeAligned then none
  else some (heapIndex, heapIndex + sizeAligned)

/-- Result of rtos_task_allocate_stack: the returned pointer (the TOP of
the block, aligned down to 8) together with the extent of the block the
allocator handed out. -/
structure StackAllocation where
  stackTopAddr : Nat
  blockStart : Nat
  blockSize : Nat
deriving DecidableEq, Repr

/-- rtos_task_allocate_stack (task.c lines 476-498): allocates a block
and returns ALIGN8_DOWN(block + size) — the highest address of the
block, not its start. -/
def rtos_task_allocate_stack (heapIndex size : Nat) : Option StackAllocation :=
  match rtos_malloc heapIndex size with
  | none => none
  | some (stackBlock, _) =>
    some { stackTopAddr := ALIGN8_DOWN_VALUE (stackBlock + size),
           blockStart := stackBlock, blockSize := size }

/-- PORT_STACK_ALIGNMENT (port_priv.h, Cortex-M4). -/
def PORT_STACK_ALIGNMENT : Nat := 8

/-- rtos_port_init_task_stack (port.c lines 87-120): align the given top
down to the stack alignment, then push 17 words (the 8-word exception
frame, the EXC_RETURN selector, and R4-R11), returning the resulting
stack pointer. -/
def rtos_port_init_task_stack (stackTop : Nat) : Nat :=
  stackTop / PORT_STACK_ALIGNMENT * PORT_STACK_ALIGNMENT - 17 * 4

/-- Stack-related fields of a freshly created task (rtos_task_create). -/
structure TaskStackSetup where
  canaryAddr : Nat
  stackBase : Nat
  stackTop : Nat
  stackPointer : Nat
  stackSize : Nat
  regionStart : Nat
deriving DecidableEq, Repr

/-- Stack establishment of rtos_task_create (task.c lines 84-149): apply
the default and minimum stack sizes, align to 8 (stack_size is uint16_t),
allocate via rtos_task_allocate_stack, write the canary through the
returned pointer, and record that same pointer as both stack_base and
stack_top; the initial stack pointer comes from rtos_port_init_task_stack.
regionStart is the lowest address of the allocated stack region. -/
def rtos_task_create_stack_setup (heapIndex stackSizeArg : Nat) : Option TaskStackSetup :=
  let size0 := if stackSizeArg = 0 then RTOS_DEFAULT_TASK_STACK_SIZE else stackSizeArg
  let size1 := if size0 < RTOS_MINIMUM_TASK_STACK_SIZE then RTOS_MINIMUM_TASK_STACK_SIZE else size0
  let size := ALIGN8_UP_VALUE size1 % 65536
  match rtos_task_allocate_stack heapIndex size with
  | none => none
  | some alloc =>
    some { canaryAddr := alloc.stackTopAddr
         , stackBase := alloc.stackTopAddr
         , stackTop := alloc.stackTopAddr
         , stackPointer := rtos_port_init_task_stack alloc.stackTopAddr
         , stackSize := size
         , regionStart := alloc.blockStart }

/-! ## Wait-list lemmas -/

theorem mutex_add_go_mem (t x : Tcb) :
    ∀ (l : List Tcb), x ∈ mutex_add_go l t ↔ x = t ∨ x ∈ l
  | [] => by simp [mutex_add_go]
  | c :: rest => by
    simp only [mutex_add_go]
    split
    · simp only [List.mem_cons, mutex_add_go_mem t x rest]
      tauto
    · simp [List.mem_cons]

theorem mutex_add_go_sorted (t : Tcb) :
    ∀ (l : List Tcb), WaitListSorted l → WaitListSorted (mutex_add_go l t)
  | [], _ => by simp [mutex_add_go, WaitListSorted]
  | c :: rest, h => by
    have hc : ∀ x ∈ rest, x.priority ≤ c.priority := (List.pairwise_cons.mp h).1
    have hrest : WaitListSorted rest := (List.pairwise_cons.mp h).2
    simp only [mutex_add_go]
    split
    · rename_i hp
      refine List.pairwise_cons.mpr ⟨fun x hx => ?_, mutex_add_go_sorted t rest hrest⟩
      rcases (mutex_add_go_mem t x rest).mp hx with h1 | h1
      · subst h1; exact hp
      · exact hc x h1
    · rename_i hp
      push_neg at hp
      refine List.pairwise_cons.mpr ⟨fun x hx => ?_, h⟩
      rcases List.mem_cons.mp hx with h1 | h1
      · subst h1; exact Nat.le_of_lt hp
      · exact le_trans (hc x h1) (Nat.le_of_lt hp)

theorem mutex_add_go_eq (t : Tcb) :
    ∀ (l : List Tcb),
      mutex_add_go l t
        = l.takeWhile (fun c => decide (t.priority ≤ c.priority))
          ++ t :: l.dropWhile (fun c => decide (t.priority ≤ c.priority))
  | [] => by simp [mutex_add_go]
  | c :: rest => by
    by_cases hp : t.priority ≤ c.priority
    · simp [mutex_add_go, List.takeWhile_cons, List.dropWhile_cons, hp,
        mutex_add_go_eq t rest]
    · simp [mutex_add_go, List.takeWhile_cons, List.dropWhile_cons, hp]

theorem sorted_mem_takeWhile (t : Tcb) :
    ∀ (l : List Tcb), WaitListSorted l → ∀ x ∈ l, t.priority ≤ x.priority →
      x ∈ l.takeWhile (fun c => decide (t.priority ≤ c.priority))
  | [], _, x, hx, _ => by simp at hx
  | c :: rest, h, x, hx, hpx => by
    have hc : ∀ y ∈ rest, y.priority ≤ c.priority := (List.pairwise_cons.mp h).1
    have hrest : WaitListSorted rest := (List.pairwise_cons.mp h).2
    rcases List.mem_cons.mp hx with h1 | h1
    · subst h1
      rw [List.takeWhile_cons, if_pos (decide_eq_true hpx)]
      exact List.mem_cons_self _ _
    · have hxc : t.priority ≤ c.priority := le_trans hpx (hc x h1)
      rw [List.takeWhile_cons, if_pos (decide_eq_true hxc)]
      exact List.mem_cons.mpr (Or.inr (sorted_mem_takeWhile t rest hrest x h1 hpx))

theorem mutex_remove_sublist (tid : Nat) :
    ∀ (l : List Tcb), List.Sublist (mutex_remove_from_waiting_list l tid) l
  | [] => List.Sublist.refl []
  | c :: rest => by
    simp only [mutex_remove_from_waiting_list]
    split
    · exact (List.Sublist.refl rest).cons c
    · exact (mutex_remove_sublist tid rest).cons₂ c

theorem mutex_remove_sorted (tid : Nat) (l : List Tcb) (h : WaitListSorted l) :
    WaitListSorted (mutex_remove_from_waiting_list l tid) :=
  List.Pairwise.sublist (mutex_remove_sublist tid l) h

theorem sem_add_go_eq_mutex (t : Tcb) :
    ∀ (l : List Tcb), sem_add_go l t = mutex_add_go l t
  | [] => rfl
  | c :: rest => by
    simp only [sem_add_go, mutex_add_go, sem_add_go_eq_mutex t rest]

theorem queue_add_go_eq_mutex (t : Tcb) :
    ∀ (l : List Tcb), queue_add_go l t = mutex_add_go l t
  | [] => rfl
  | c :: rest => by
    simp only [queue_add_go, mutex_add_go, queue_add_go_eq_mutex t rest]

theorem sem_remove_eq_mutex (tid : Nat) :
    ∀ (l : List Tcb),
      sem_remove_from_waiting_list l tid = mutex_remove_from_waiting_list l tid
  | [] => rfl
  | c :: rest => by
    simp only [sem_remove_from_waiting_list, mutex_remove_from_waiting_list,
      sem_remove_eq_mutex tid rest]

theorem queue_remove_eq_mutex (tid : Nat) :
    ∀ (l : List Tcb),
      queue_remove_from_waiting_list l tid = mutex_remove_from_waiting_list l tid
  | [] => rfl
  | c :: rest => by
    simp only [queue_remove_from_waiting_list, mutex_remove_from_waiting_list,
      queue_remove_eq_mutex tid rest]

theorem sem_pop_eq_mutex :
    ∀ (l : List Tcb), sem_pop_highest_priority_waiter l = mutex_pop_highest_priority_waiter l
  | [] => rfl
  | _ :: _ => rfl

theorem queue_pop_eq_mutex :
    ∀ (l : List Tcb), queue_pop_highest_priority_waiter l = mutex_pop_highest_priority_waiter l
  | [] => rfl
  | _ :: _ => rfl

/-- Claim C7: for every synchronization object (mutex, semaphore, queue)
and every wait-list insertion and removal, the wait list stays sorted by
task priority descending; an inserted task is placed after every entry
of greater or equal priority (equal-priority tasks therefore keep FIFO
order of insertion) and before all strictly-lower entries; the popped
head is always a waiter of maximal priority, ties broken first-in
first-out. -/
theorem C7_wait_list_priority_order (mid sid qid tid : Nat) (l : List Tcb) (t : Tcb)
    (hs : WaitListSorted l) :
    WaitListSorted (mutex_add_to_waiting_list mid l t)
    ∧ WaitListSorted (sem_add_to_waiting_list sid l t)
    ∧ WaitListSorted (queue_add_to_waiting_list qid l t)
    ∧ WaitListSorted (mutex_remove_from_waiting_list l tid)
    ∧ WaitListSorted (sem_remove_from_waiting_list l tid)
    ∧ WaitListSorted (queue_remove_from_waiting_list l tid)
    ∧ mutex_add_to_waiting_list mid l t
        = l.takeWhile (fun c => decide (t.priority ≤ c.priority))
          ++ { t with blockedOn := some mid, blockedOnType := SyncType.mutex }
            :: l.dropWhile (fun c => decide (t.priority ≤ c.priority))
    ∧ (∀ x ∈ l, t.priority ≤ x.priority →
        x ∈ l.takeWhile (fun c => decide (t.priority ≤ c.priority)))
    ∧ (∀ w rest, l = w :: rest →
        mutex_pop_highest_priority_waiter l
          = (some { w with blockedOn := none, blockedOnType := SyncType.none }, rest)
        ∧ sem_pop_highest_priority_waiter l = mutex_pop_highest_priority_waiter l
        ∧ queue_pop_highest_priority_waiter l = mutex_pop_highest_priority_waiter l
        ∧ (∀ x ∈ l, x.priority ≤ w.priority)) := by
  refine ⟨mutex_add_go_sorted _ l hs, ?_, ?_, mutex_remove_sorted tid l hs, ?_, ?_, ?_, ?_, ?_⟩
  · unfold sem_add_to_waiting_list
    rw [sem_add_go_eq_mutex]
    exact mutex_add_go_sorted _ l hs
  · unfold queue_add_to_waiting_list
    rw [queue_add_go_eq_mutex]
    exact mutex_add_go_sorted _ l hs
  · rw [sem_remove_eq_mutex]
    exact mutex_remove_sorted tid l hs
  · rw [queue_remove_eq_mutex]
    exact mutex_remove_sorted tid l hs
  · unfold mutex_add_to_waiting_list
    rw [mutex_add_go_eq]
  · exact fun x hx hpx => sorted_mem_takeWhile t l hs x hx hpx
  · intro w rest hl
    subst hl
    refine ⟨rfl, sem_pop_eq_mutex _, queue_pop_eq_mutex _, fun x hx => ?_⟩
    rcases List.mem_cons.mp hx with h1 | h1
    · subst h1; exact le_refl _
    · exact (List.pairwise_cons.mp hs).1 x h1

/-- Claim C7 witness: the ordering theorem applied to a concrete sorted
wait list. -/
theorem C7_wait_list_priority_order_witness :
    WaitListSorted
      (mutex_add_to_waiting_list 0
        [{ id := 1, priority := 5, basePriority := 5, state := TaskState.blocked,
           blockedOn := some 0, blockedOnType := SyncType.mutex },
         { id := 2, priority := 3, basePriority := 3, state := TaskState.blocked,
           blockedOn := some 0, blockedOnType := SyncType.mutex }]
        { id := 3, priority := 4, basePriority := 4, state := TaskState.running,
          blockedOn := none, blockedOnType := SyncType.none }) :=
  (C7_wait_list_priority_order 0 1 2 2
    [{ id := 1, priority := 5, basePriority := 5, state := TaskState.blocked,
       blockedOn := some 0, blockedOnType := SyncType.mutex },
     { id := 2, priority := 3, basePriority := 3, state := TaskState.blocked,
       blockedOn := some 0, blockedOnType := SyncType.mutex }]
    { id := 3, priority := 4, basePriority := 4, state := TaskState.running,
      blockedOn := none, blockedOnType := SyncType.none }
    (by decide)).1

/-! ## Tick-comparison lemmas -/

theorem sub32_shift (a b c : Nat) (ha : a < UINT32_MOD) (hb : b < UINT32_MOD) :
    sub32 ((a + c) % UINT32_MOD) ((b + c) % UINT32_MOD) = sub32 a b := by
  unfold sub32
  unfold UINT32_MOD at ha hb ⊢
  omega

/-- Claim C1 counterexample: with the tick counter at 2^32 - 16 and a
task whose delay_until is 16 (a wakeup 32 ticks in the logical future:
the signed comparison time_before says the current tick is before
delay_until), the delayed-task update of the preemptive scheduler wakes
the task immediately, because preemptive_sp_update_delayed_tasks_internal
compares current_tick >= delay_until as plain unsigned 32-bit values.
This refutes the claim that every delayed-task wakeup comparison is the
signed 32-bit difference and that such a task is never woken early. -/
theorem C1_counterexample :
    time_before 4294967280 16 = true
    ∧ (preemptive_sp_update_delayed_tasks 4294967280
        [{ id := 7, delayUntil := 16 }]).1 = [{ id := 7, delayUntil := 16 }] := by
  constructor
  · decide
  · decide

/-- Claim C1 (amended): the timer-expiry comparisons (time_before and
the expiry test of rtos_timer_tick) are computed as a signed 32-bit
difference and are therefore invariant under shifting both operands by
a common offset modulo 2^32, and a timer whose expiry lies in the
signed future is not fired; the delayed-task wakeup comparison, by
contrast, is the plain unsigned comparison current_tick >= delay_until,
so a delayed task is woken exactly when delay_until <= current_tick
numerically, and there are tick pairs where delay_until lies in the
signed (logical) future yet the task is woken early. -/
theorem C1_tick_comparisons (a b c e du now i : Nat) (rest : List DelayedEntry)
    (timers : List Nat) (ha : a < UINT32_MOD) (hb : b < UINT32_MOD) :
    time_before ((a + c) % UINT32_MOD) ((b + c) % UINT32_MOD) = time_before a b
    ∧ timer_expired_check ((a + c) % UINT32_MOD) ((b + c) % UINT32_MOD)
        = timer_expired_check a b
    ∧ (timer_expired_check e now = false →
        rtos_timer_tick_expired_split now (e :: timers) = ([], e :: timers))
    ∧ (timer_expired_check e now = true →
        (rtos_timer_tick_expired_split now (e :: timers)).1
          = e :: (rtos_timer_tick_expired_split now timers).1)
    ∧ delayed_task_expired_check now du = decide (du ≤ now)
    ∧ (now < du →
        preemptive_sp_update_delayed_tasks now ({ id := i, delayUntil := du } :: rest)
          = ([], { id := i, delayUntil := du } :: rest))
    ∧ (du ≤ now →
        (preemptive_sp_update_delayed_tasks now ({ id := i, delayUntil := du } :: rest)).1
          = { id := i, delayUntil := du }
              :: (preemptive_sp_update_delayed_tasks now rest).1)
    ∧ (∃ now2 du2, time_before now2 du2 = true
        ∧ (preemptive_sp_update_delayed_tasks now2
            [{ id := 0, delayUntil := du2 }]).1 = [{ id := 0, delayUntil := du2 }]) := by
  refine ⟨?_, ?_, ?_, ?_, rfl, ?_, ?_, ?_⟩
  · unfold time_before
    rw [sub32_shift a b c ha hb]
  · unfold timer_expired_check
    rw [sub32_shift a b c ha hb]
  · intro h
    simp [rtos_timer_tick_expired_split, h]
  · intro h
    simp [rtos_timer_tick_expired_split, h]
  · intro h
    have hch : delayed_task_expired_check now du = false := by
      unfold delayed_task_expired_check
      simp [Nat.not_le.mpr h]
    simp [preemptive_sp_update_delayed_tasks, hch]
  · intro h
    have hch : delayed_task_expired_check now du = true := by
      unfold delayed_task_expired_check
      simp [h]
    simp [preemptive_sp_update_delayed_tasks, hch]
  · exact ⟨4294967290, 20, by decide, by decide⟩

/-- Claim C1 witness: the amended tick-comparison theorem applied at
concrete operands near the wrap. -/
theorem C1_tick_comparisons_witness :
    time_before ((4294967200 + 200) % UINT32_MOD) ((4294967290 + 200) % UINT32_MOD)
      = time_before 4294967200 4294967290 :=
  (C1_tick_comparisons 4294967200 4294967290 200 0 0 0 0 [] []
    (by decide) (by decide)).1

/-- Claim C3: the registry in scheduler.c lists only the preemptive
static-priority and cooperative vtables, so scheduler initialization
succeeds for those two and installs their interfaces, but for
RTOS_SCHEDULER_ROUND_ROBIN the registry scan finds no interface and
rtos_scheduler_init fails with RTOS_ERROR_INVALID_PARAM, leaving the
instance untouched — even though round_robin.c defines the complete
round_robin_scheduler vtable and the round-robin test expects a kernel
configured with that type to initialize.  This evaluates the embedded
code at the failing input SCHEDULER_TYPE = RTOS_SCHEDULER_ROUND_ROBIN. -/
theorem C3_round_robin_not_registered :
    rtos_scheduler_init g_scheduler_instance_reset SchedulerType.preemptiveSP
      = (RtosStatus.success,
         { vtable := some SchedulerVtable.preemptive_sp_scheduler,
           stype := SchedulerType.preemptiveSP, isInit := true })
    ∧ rtos_scheduler_init g_scheduler_instance_reset SchedulerType.cooperative
      = (RtosStatus.success,
         { vtable := some SchedulerVtable.cooperative_scheduler,
           stype := SchedulerType.cooperative, isInit := true })
    ∧ rtos_scheduler_find_interface SchedulerType.roundRobin = none
    ∧ rtos_scheduler_init g_scheduler_instance_reset SchedulerType.roundRobin
      = (RtosStatus.errInvalidParam, g_scheduler_instance_reset)
    ∧ RtosStatus.errInvalidParam ≠ RtosStatus.success := by
  refine ⟨?_, ?_, ?_, ?_, ?_⟩ <;> decide

/-- Claim C4: evaluation of the stack setup of rtos_task_create at a
concrete successful creation (first allocation, stack_size = 128).  The
allocated region is [0, 128); the canary is written through the pointer
returned by rtos_task_allocate_stack, which is the TOP of the region
(address 128), not its bottom word (address 0); stack_base and
stack_top both record that same top address; and the initial stack
pointer 60 lies below stack_base, so it is not within
[stack_base, stack_top].  This contradicts the claim (and the comment
in task.c, which says the canary is written at the bottom of the stack
for overflow detection). -/
theorem C4_canary_written_at_stack_top :
    rtos_task_create_stack_setup 0 128
      = some { canaryAddr := 128, stackBase := 128, stackTop := 128,
               stackPointer := 60, stackSize := 128, regionStart := 0 }
    ∧ (128 : Nat) ≠ 0
    ∧ ¬ ((128 : Nat) ≤ 60 ∧ (60 : Nat) ≤ 128) := by
  refine ⟨?_, ?_, ?_⟩ <;> decide

/-! ## Mutex claims -/

/-- Claim C2 counterexample: unlocking a mutex owned by task 1 from
task 2 returns RTOS_MUTEX_ERR_INVALID, whose rtos_status_t value is
RTOS_ERROR_INVALID_PARAM (code 1), not RTOS_ERROR_INVALID_STATE
(code 4); the mutex API has no InvalidState status at all, so the claim
that the InvalidState error is returned fails (the frame part — the
mutex is unchanged — does hold). -/
theorem C2_counterexample :
    (rtos_mutex_unlock { owner := some 1, waitingList := [], lockCount := 1 }
        { id := 2, priority := 2, basePriority := 2, state := TaskState.running,
          blockedOn := none, blockedOnType := SyncType.none }).status
      ≠ RtosStatus.errInvalidState
    ∧ (rtos_mutex_unlock { owner := some 1, waitingList := [], lockCount := 1 }
        { id := 2, priority := 2, basePriority := 2, state := TaskState.running,
          blockedOn := none, blockedOnType := SyncType.none }).status.code = 1
    ∧ RtosStatus.errInvalidState.code = 4 := by
  refine ⟨?_, ?_, ?_⟩ <;> decide

/-- Claim C2 (amended): for every mutex and every calling task that is
not its current owner, rtos_mutex_unlock returns RTOS_MUTEX_ERR_INVALID
(numerically RTOS_ERROR_INVALID_PARAM, not InvalidState) and leaves the
mutex — owner, lock_count, waiting_list — and the caller unchanged,
waking nobody. -/
theorem C2_unlock_by_non_owner (m : Mutex) (c : Tcb) (h : m.owner ≠ some c.id) :
    (rtos_mutex_unlock m c).status = RTOS_MUTEX_ERR_INVALID
    ∧ RTOS_MUTEX_ERR_INVALID = RtosStatus.errInvalidParam
    ∧ (rtos_mutex_unlock m c).status ≠ RtosStatus.errInvalidState
    ∧ (rtos_mutex_unlock m c).mtx = m
    ∧ (rtos_mutex_unlock m c).caller = c
    ∧ (rtos_mutex_unlock m c).woken = none := by
  unfold rtos_mutex_unlock
  rw [if_pos h]
  refine ⟨rfl, rfl, ?_, rfl, rfl, rfl⟩
  intro hcontra
  simp [RTOS_MUTEX_ERR_INVALID] at hcontra

/-- Claim C2 witness: the non-owner-unlock theorem applied to a concrete
mutex and caller. -/
theorem C2_unlock_by_non_owner_witness :
    (rtos_mutex_unlock { owner := some 5, waitingList := [], lockCount := 2 }
        { id := 6, priority := 1, basePriority := 1, state := TaskState.running,
          blockedOn := none, blockedOnType := SyncType.none }).mtx
      = { owner := some 5, waitingList := [], lockCount := 2 } :=
  (C2_unlock_by_non_owner { owner := some 5, waitingList := [], lockCount := 2 }
    { id := 6, priority := 1, basePriority := 1, state := TaskState.running,
      blockedOn := none, blockedOnType := SyncType.none } (by decide)).2.2.2.1

/-- Claim C6: on a full unlock (lock_count = 1) with a non-empty waiting
list, ownership transfers directly: the highest-priority waiter (the
head of the priority-sorted list) is removed, becomes owner with
lock_count = 1, has blocked_on cleared and is unblocked (READY); the
mutex is never left unowned while waiters exist; and the releasing
task's priority is restored to its base_priority. -/
theorem C6_ownership_transfer (m : Mutex) (c w : Tcb) (rest : List Tcb)
    (howner : m.owner = some c.id) (hcount : m.lockCount = 1)
    (hw : m.waitingList = w :: rest) (hsorted : WaitListSorted m.waitingList)
    (hblocked : w.state = TaskState.blocked) :
    (rtos_mutex_unlock m c).status = RTOS_MUTEX_OK
    ∧ (rtos_mutex_unlock m c).mtx.owner = some w.id
    ∧ (rtos_mutex_unlock m c).mtx.owner ≠ none
    ∧ (rtos_mutex_unlock m c).mtx.lockCount = 1
    ∧ (rtos_mutex_unlock m c).mtx.waitingList = rest
    ∧ (rtos_mutex_unlock m c).woken
        = some { w with state := TaskState.ready, blockedOn := none, blockedOnType := SyncType.none }
    ∧ (rtos_mutex_unlock m c).caller.priority = c.basePriority
    ∧ (∀ x ∈ m.waitingList, x.priority ≤ w.priority) := by
  have hmain : rtos_mutex_unlock m c
      = { status := RTOS_MUTEX_OK
          , mtx := { owner := some w.id, waitingList := rest, lockCount := 1 }
          , caller := { c with priority := c.basePriority }
          , woken := some { w with state := TaskState.ready, blockedOn := none, blockedOnType := SyncType.none } } := by
    simp [rtos_mutex_unlock, howner, hcount, hw, mutex_pop_highest_priority_waiter,
      rtos_kernel_task_unblock, mutex_restore_priority, hblocked]
  rw [hmain]
  refine ⟨rfl, rfl, by simp, rfl, rfl, rfl, rfl, fun x hx => ?_⟩
  rw [hw] at hx hsorted
  rcases List.mem_cons.mp hx with h1 | h1
  · subst h1; exact le_refl _
  · exact (List.pairwise_cons.mp hsorted).1 x h1

/-- Claim C6 witness: ownership transfer evaluated on a concrete
contended mutex with two waiters. -/
theorem C6_ownership_transfer_witness :
    (rtos_mutex_unlock
        { owner := some 1,
          waitingList :=
            [{ id := 2, priority := 5, basePriority := 5, state := TaskState.blocked,
               blockedOn := some 0, blockedOnType := SyncType.mutex },
             { id := 3, priority := 3, basePriority := 3, state := TaskState.blocked,
               blockedOn := some 0, blockedOnType := SyncType.mutex }],
          lockCount := 1 }
        { id := 1, priority := 5, basePriority := 2, state := TaskState.running,
          blockedOn := none, blockedOnType := SyncType.none }).mtx.owner = some 2 :=
  (C6_ownership_transfer
    { owner := some 1,
      waitingList :=
        [{ id := 2, priority := 5, basePriority := 5, state := TaskState.blocked,
           blockedOn := some 0, blockedOnType := SyncType.mutex },
         { id := 3, priority := 3, basePriority := 3, state := TaskState.blocked,
           blockedOn := some 0, blockedOnType := SyncType.mutex }],
      lockCount := 1 }
    { id := 1, priority := 5, basePriority := 2, state := TaskState.running,
      blockedOn := none, blockedOnType := SyncType.none }
    { id := 2, priority := 5, basePriority := 5, state := TaskState.blocked,
      blockedOn := some 0, blockedOnType := SyncType.mutex }
    [{ id := 3, priority := 3, basePriority := 3, state := TaskState.blocked,
       blockedOn := some 0, blockedOnType := SyncType.mutex }]
    rfl rfl rfl (by decide) rfl).2.1

/-- Claim C9: on a freshly initialized mutex, an uncontended lock (the
fast path: owner becomes the caller with lock_count 1) followed by an
unlock with no waiters returns the mutex to exactly its post-init
state: owner = NULL, lock_count = 0, waiting_list empty. -/
theorem C9_lock_unlock_roundtrip (m : Mutex) (c : Tcb) (timeoutTicks mid : Nat) :
    (rtos_mutex_init m).2 = { owner := none, waitingList := [], lockCount := 0 }
    ∧ rtos_mutex_lock mid (rtos_mutex_init m).2 c timeoutTicks
        = MutexLockOutcome.completed RTOS_MUTEX_OK
            { owner := some c.id, waitingList := [], lockCount := 1 }
    ∧ (rtos_mutex_unlock { owner := some c.id, waitingList := [], lockCount := 1 } c).status
        = RTOS_MUTEX_OK
    ∧ (rtos_mutex_unlock { owner := some c.id, waitingList := [], lockCount := 1 } c).mtx
        = (rtos_mutex_init m).2 := by
  refine ⟨rfl, ?_, ?_, ?_⟩
  · simp [rtos_mutex_lock, rtos_mutex_init]
  · simp [rtos_mutex_unlock, mutex_pop_highest_priority_waiter, mutex_restore_priority]
  · simp [rtos_mutex_unlock, rtos_mutex_init, mutex_pop_highest_priority_waiter,
      mutex_restore_priority]

/-! ## Semaphore claims -/

/-- Claim C5: rtos_semaphore_signal with at least one waiter wakes the
highest-priority waiter (the sorted-list head) and does not change
count (handoff); with no waiter and a nonzero max_count already reached
it returns the overflow error (RTOS_SEM_ERR_OVERFLOW) with count
unchanged; with no waiter otherwise it increments count by exactly one
(uint32_t increment).  Consequently the invariant count > 0 implies an
empty waiting list is preserved by signal. -/
theorem C5_semaphore_signal (s : Semaphore) (w : Tcb) (rest : List Tcb) :
    (s.waitingList = w :: rest → w.state = TaskState.blocked →
      rtos_semaphore_signal s
        = (RTOS_SEM_OK, { s with waitingList := rest },
           some { w with state := TaskState.ready, blockedOn := none, blockedOnType := SyncType.none })
      ∧ (rtos_semaphore_signal s).2.1.count = s.count
      ∧ (WaitListSorted s.waitingList → ∀ x ∈ s.waitingList, x.priority ≤ w.priority))
    ∧ (s.waitingList = [] → s.maxCount ≠ 0 → s.count = s.maxCount →
        rtos_semaphore_signal s = (RTOS_SEM_ERR_OVERFLOW, s, none))
    ∧ (s.waitingList = [] → (s.maxCount = 0 ∨ s.count < s.maxCount) →
        rtos_semaphore_signal s
          = (RTOS_SEM_OK, { s with count := (s.count + 1) % UINT32_MOD }, none)
        ∧ (s.count + 1 < UINT32_MOD → (rtos_semaphore_signal s).2.1.count = s.count + 1))
    ∧ ((0 < s.count → s.waitingList = []) →
        0 < (rtos_semaphore_signal s).2.1.count →
          (rtos_semaphore_signal s).2.1.waitingList = []) := by
  refine ⟨?_, ?_, ?_, ?_⟩
  · intro hw hb
    have hmain : rtos_semaphore_signal s
        = (RTOS_SEM_OK, { s with waitingList := rest },
           some { w with state := TaskState.ready, blockedOn := none, blockedOnType := SyncType.none }) := by
      simp [rtos_semaphore_signal, hw, sem_pop_highest_priority_waiter,
        rtos_kernel_task_unblock, hb]
    refine ⟨hmain, by rw [hmain], fun hs x hx => ?_⟩
    rw [hw] at hx hs
    rcases List.mem_cons.mp hx with h1 | h1
    · subst h1; exact le_refl _
    · exact (List.pairwise_cons.mp hs).1 x h1
  · intro hw hmax hcnt
    simp [rtos_semaphore_signal, hw, sem_pop_highest_priority_waiter, hmax, hcnt]
  · intro hw hok
    have hcond : ¬ (s.maxCount ≠ 0 ∧ s.maxCount ≤ s.count) := by
      rcases hok with h0 | hlt
      · simp [h0]
      · intro hand
        exact absurd hand.2 (Nat.not_le.mpr hlt)
    have hmain : rtos_semaphore_signal s
        = (RTOS_SEM_OK, { s with count := (s.count + 1) % UINT32_MOD }, none) := by
      simp [rtos_semaphore_signal, hw, sem_pop_highest_priority_waiter, hcond]
    refine ⟨hmain, fun hlt => ?_⟩
    rw [hmain]
    exact Nat.mod_eq_of_lt hlt
  · intro hinv
    match hwl : s.waitingList with
    | [] =>
      by_cases hcond : s.maxCount ≠ 0 ∧ s.maxCount ≤ s.count
      · simp [rtos_semaphore_signal, hwl, sem_pop_highest_priority_waiter, hcond, hwl]
      · simp [rtos_semaphore_signal, hwl, sem_pop_highest_priority_waiter, hcond]
    | w0 :: rest0 =>
      have hc0 : s.count = 0 := by
        by_contra hpos
        have := hinv (Nat.pos_of_ne_zero hpos)
        rw [hwl] at this
        exact List.noConfusion this
      simp [rtos_semaphore_signal, hwl, sem_pop_highest_priority_waiter, hc0]

/-- Claim C5 witness: signal evaluated on a concrete semaphore with one
blocked waiter (handoff case: count stays 0). -/
theorem C5_semaphore_signal_witness :
    rtos_semaphore_signal
      { count := 0, maxCount := 1,
        waitingList :=
          [{ id := 4, priority := 3, basePriority := 3, state := TaskState.blocked,
             blockedOn := some 1, blockedOnType := SyncType.semaphore }] }
      = (RTOS_SEM_OK,
         { count := 0, maxCount := 1, waitingList := [] },
         some { id := 4, priority := 3, basePriority := 3, state := TaskState.ready,
                blockedOn := none, blockedOnType := SyncType.none }) :=
  ((C5_semaphore_signal
    { count := 0, maxCount := 1,
      waitingList :=
        [{ id := 4, priority := 3, basePriority := 3, state := TaskState.blocked,
           blockedOn := some 1, blockedOnType := SyncType.semaphore }] }
    { id := 4, priority := 3, basePriority := 3, state := TaskState.blocked,
      blockedOn := some 1, blockedOnType := SyncType.semaphore }
    []).1 rfl rfl).1

/-! ## Queue claims -/

theorem queue_reset_wake_all_eq_map :
    ∀ (l : List Tcb), queue_reset_wake_all l
      = l.map (fun w => rtos_kernel_task_unblock
          { w with blockedOn := none, blockedOnType := SyncType.none })
  | [] => rfl
  | w :: rest => by
    simp [queue_reset_wake_all, queue_reset_wake_all_eq_map rest]

theorem rtos_kernel_task_unblock_blockedOn (t : Tcb) :
    (rtos_kernel_task_unblock t).blockedOn = t.blockedOn := by
  unfold rtos_kernel_task_unblock
  split <;> rfl

theorem rtos_kernel_task_unblock_state_of_blocked (t : Tcb)
    (h : t.state = TaskState.blocked) :
    (rtos_kernel_task_unblock t).state = TaskState.ready := by
  unfold rtos_kernel_task_unblock
  rw [if_pos h]

/-- Claim C8: rtos_queue_reset sets count to 0 and both the read and the
write pointer back to the buffer start, removes and unblocks every task
on the sender wait list in order (each with blocked_on cleared, and
READY if it was blocked), and leaves the receiver wait list — and the
buffer geometry — unchanged: no blocked receiver is woken. -/
theorem C8_queue_reset (q : Queue) :
    (rtos_queue_reset q).1 = RtosStatus.success
    ∧ (rtos_queue_reset q).2.1.count = 0
    ∧ (rtos_queue_reset q).2.1.readOfs = 0
    ∧ (rtos_queue_reset q).2.1.writeOfs = 0
    ∧ (rtos_queue_reset q).2.1.senderWaitList = []
    ∧ (rtos_queue_reset q).2.1.receiverWaitList = q.receiverWaitList
    ∧ (rtos_queue_reset q).2.1.length = q.length
    ∧ (rtos_queue_reset q).2.1.itemSize = q.itemSize
    ∧ (rtos_queue_reset q).2.2
        = q.senderWaitList.map (fun w => rtos_kernel_task_unblock
            { w with blockedOn := none, blockedOnType := SyncType.none })
    ∧ (∀ x ∈ (rtos_queue_reset q).2.2, x.blockedOn = none)
    ∧ ((∀ w ∈ q.senderWaitList, w.state = TaskState.blocked) →
        ∀ x ∈ (rtos_queue_reset q).2.2, x.state = TaskState.ready) := by
  refine ⟨rfl, rfl, rfl, rfl, rfl, rfl, rfl, rfl,
    queue_reset_wake_all_eq_map q.senderWaitList, ?_, ?_⟩
  · intro x hx
    rw [show (rtos_queue_reset q).2.2 = queue_reset_wake_all q.senderWaitList from rfl,
      queue_reset_wake_all_eq_map] at hx
    obtain ⟨w, _, hwx⟩ := List.mem_map.mp hx
    rw [← hwx, rtos_kernel_task_unblock_blockedOn]
  · intro hall x hx
    rw [show (rtos_queue_reset q).2.2 = queue_reset_wake_all q.senderWaitList from rfl,
      queue_reset_wake_all_eq_map] at hx
    obtain ⟨w, hwmem, hwx⟩ := List.mem_map.mp hx
    rw [← hwx]
    exact rtos_kernel_task_unblock_state_of_blocked _ (hall w hwmem)

/-- Claim C8 witness: reset evaluated on a concrete queue with one
blocked sender and one blocked receiver. -/
theorem C8_queue_reset_witness :
    (rtos_queue_reset
        { length := 2, itemSize := 4, count := 2, readOfs := 4, writeOfs := 4,
          senderWaitList :=
            [{ id := 8, priority := 2, basePriority := 2, state := TaskState.blocked,
               blockedOn := some 9, blockedOnType := SyncType.queue }],
          receiverWaitList :=
            [{ id := 9, priority := 1, basePriority := 1, state := TaskState.blocked,
               blockedOn := some 9, blockedOnType := SyncType.queue }] }).2.1.receiverWaitList
      = [{ id := 9, priority := 1, basePriority := 1, state := TaskState.blocked,
           blockedOn := some 9, blockedOnType := SyncType.queue }] :=
  (C8_queue_reset
    { length := 2, itemSize := 4, count := 2, readOfs := 4, writeOfs := 4,
      senderWaitList :=
        [{ id := 8, priority := 2, basePriority := 2, state := TaskState.blocked,
           blockedOn := some 9, blockedOnType := SyncType.queue }],
      receiverWaitList :=
        [{ id := 9, priority := 1, basePriority := 1, state := TaskState.blocked,
           blockedOn := some 9, blockedOnType := SyncType.queue }] }).2.2.2.2.2.1

/-! ## Infinite-timeout claim -/

/-- Claim C10: for blocking calls on a mutex, semaphore or queue, the
timeout value 0xFFFFFFFF ((rtos_tick_t)-1 — RTOS_MAX_WAIT,
RTOS_SEM_MAX_WAIT, RTOS_MAX_DELAY are all that value) selects the
wait-forever branch: the caller is enqueued on the object and blocked
without any delay handed to rtos_kernel_task_block, so no delayed-list
entry exists for it (only the timed branch requests one, and it always
requests exactly the caller's timeout, which is never 0xFFFFFFFF —
hence a finite wait of exactly 2^32 - 1 ticks cannot be requested
through these calls).  A peer wake pops the waiter with blocked_on
cleared, and each resumption check returns the timeout error only when
blocked_on still points at the object, so a wait-forever call never
returns Timeout. -/
theorem C10_infinite_timeout (mid sid qid o : Nat) (m : Mutex) (s : Semaphore) (q : Queue)
    (c : Tcb) (d : Nat)
    (hmo : m.owner = some o) (hne : o ≠ c.id)
    (hsc : s.count = 0) (hqf : ¬ q.count < q.length) :
    RTOS_MAX_WAIT = 4294967295
    ∧ RTOS_SEM_MAX_WAIT = 4294967295
    ∧ RTOS_MAX_DELAY = 4294967295
    ∧ rtos_mutex_lock mid m c RTOS_MAX_WAIT
        = MutexLockOutcome.blockedForever
            { m with waitingList := mutex_add_to_waiting_list mid m.waitingList c }
            { c with state := TaskState.blocked, blockedOn := some mid, blockedOnType := SyncType.mutex }
    ∧ mutex_lock_delay_request (rtos_mutex_lock mid m c RTOS_MAX_WAIT) = none
    ∧ rtos_semaphore_wait sid s c RTOS_SEM_MAX_WAIT
        = SemWaitOutcome.blockedForever
            { s with waitingList := sem_add_to_waiting_list sid s.waitingList c }
            { c with state := TaskState.blocked, blockedOn := some sid, blockedOnType := SyncType.semaphore }
    ∧ sem_wait_delay_request (rtos_semaphore_wait sid s c RTOS_SEM_MAX_WAIT) = none
    ∧ rtos_queue_send qid q c RTOS_MAX_DELAY
        = QueueSendOutcome.blockedForever
            { q with senderWaitList := queue_add_to_waiting_list qid q.senderWaitList c }
            { c with state := TaskState.blocked, blockedOn := some qid, blockedOnType := SyncType.queue }
    ∧ queue_send_delay_request (rtos_queue_send qid q c RTOS_MAX_DELAY) = none
    ∧ (∀ m2 w dt, rtos_mutex_lock mid m c d = MutexLockOutcome.blockedTimed m2 w dt →
        dt = d ∧ d ≠ 4294967295 ∧ d ≠ 0)
    ∧ (∀ s2 w dt, rtos_semaphore_wait sid s c d = SemWaitOutcome.blockedTimed s2 w dt →
        dt = d ∧ d ≠ 4294967295 ∧ d ≠ 0)
    ∧ (∀ q2 w dt, rtos_queue_send qid q c d = QueueSendOutcome.blockedTimed q2 w dt →
        dt = d ∧ d ≠ 4294967295 ∧ d ≠ 0)
    ∧ (∀ l (w : Tcb) rest2, mutex_pop_highest_priority_waiter l = (some w, rest2) →
        w.blockedOn = none)
    ∧ (∀ t2 : Tcb, t2.blockedOn = none →
        (mutex_lock_resume mid m t2).1 = RTOS_MUTEX_OK
        ∧ (sem_wait_resume sid s t2).1 = RTOS_SEM_OK
        ∧ (rtos_queue_send_resume qid q t2).1 ≠ RtosStatus.errTimeout) := by
  have hMW : RTOS_MAX_WAIT = 4294967295 := rfl
  have hnotowner : ¬ m.owner = Option.none := by simp [hmo]
  have hnotself : ¬ m.owner = some c.id := by simp [hmo, hne]
  refine ⟨rfl, rfl, rfl, ?_, ?_, ?_, ?_, ?_, ?_, ?_, ?_, ?_, ?_, ?_⟩
  · simp [rtos_mutex_lock, hnotowner, hnotself, RTOS_NO_WAIT, RTOS_MAX_WAIT, UINT32_MOD]
  · simp [rtos_mutex_lock, mutex_lock_delay_request, hnotowner, hnotself,
      RTOS_NO_WAIT, RTOS_MAX_WAIT, UINT32_MOD]
  · simp [rtos_semaphore_wait, hsc, RTOS_SEM_NO_WAIT, RTOS_SEM_MAX_WAIT]
  · simp [rtos_semaphore_wait, sem_wait_delay_request, hsc,
      RTOS_SEM_NO_WAIT, RTOS_SEM_MAX_WAIT]
  · simp [rtos_queue_send, hqf, RTOS_MAX_DELAY, UINT32_MOD]
  · simp [rtos_queue_send, queue_send_delay_request, hqf, RTOS_MAX_DELAY, UINT32_MOD]
  · intro m2 w dt h
    by_cases h0 : d = 0
    · simp [rtos_mutex_lock, hnotowner, hnotself, RTOS_NO_WAIT, h0] at h
    · by_cases hM : d = 4294967295
      · simp [rtos_mutex_lock, hnotowner, hnotself, RTOS_NO_WAIT, h0, hM,
          RTOS_MAX_WAIT, UINT32_MOD] at h
      · have hM2 : ¬ d = RTOS_MAX_WAIT := by rw [hMW]; exact hM
        simp [rtos_mutex_lock, hnotowner, hnotself, RTOS_NO_WAIT, h0, hM2] at h
        exact ⟨h.2.2.symm, hM, h0⟩
  · intro s2 w dt h
    by_cases h0 : d = 0
    · simp [rtos_semaphore_wait, hsc, RTOS_SEM_NO_WAIT, h0] at h
    · by_cases hM : d = 4294967295
      · simp [rtos_semaphore_wait, hsc, RTOS_SEM_NO_WAIT, h0, hM, RTOS_SEM_MAX_WAIT] at h
      · have hM2 : ¬ d = RTOS_SEM_MAX_WAIT := hM
        simp [rtos_semaphore_wait, hsc, RTOS_SEM_NO_WAIT, h0, hM2] at h
        exact ⟨h.2.2.symm, hM, h0⟩
  · intro q2 w dt h
    by_cases h0 : d = 0
    · simp [rtos_queue_send, hqf, h0] at h
    · by_cases hM : d = 4294967295
      · simp [rtos_queue_send, hqf, h0, hM, RTOS_MAX_DELAY, UINT32_MOD] at h
      · have hM2 : ¬ d = RTOS_MAX_DELAY := by
          show ¬ d = UINT32_MOD - 1
          simpa [UINT32_MOD] using hM
        simp [rtos_queue_send, hqf, h0, hM2] at h
        exact ⟨h.2.2.symm, hM, h0⟩
  · intro l w rest2 h
    match l with
    | [] => simp [mutex_pop_highest_priority_waiter] at h
    | w0 :: rest0 =>
      simp [mutex_pop_highest_priority_waiter] at h
      rw [← h.1]
  · intro t2 ht2
    have hm2 : ¬ t2.blockedOn = some mid := by simp [ht2]
    have hs2 : ¬ t2.blockedOn = some sid := by simp [ht2]
    have hq2 : ¬ t2.blockedOn = some qid := by simp [ht2]
    refine ⟨by simp [mutex_lock_resume, hm2], by simp [sem_wait_resume, hs2], ?_⟩
    simp only [rtos_queue_send_resume, if_neg hq2]
    split
    · simp
    · simp

/-- Claim C10 witness: the infinite-timeout theorem applied to a
concrete contended mutex, drained semaphore and full queue. -/
theorem C10_infinite_timeout_witness :
    rtos_mutex_lock 0 { owner := some 1, waitingList := [], lockCount := 1 }
        { id := 2, priority := 2, basePriority := 2, state := TaskState.running,
          blockedOn := none, blockedOnType := SyncType.none } RTOS_MAX_WAIT
      = MutexLockOutcome.blockedForever
          { owner := some 1,
            waitingList :=
              [{ id := 2, priority := 2, basePriority := 2, state := TaskState.running,
                 blockedOn := some 0, blockedOnType := SyncType.mutex }],
            lockCount := 1 }
          { id := 2, priority := 2, basePriority := 2, state := TaskState.blocked,
            blockedOn := some 0, blockedOnType := SyncType.mutex } :=
  (C10_infinite_timeout 0 1 2 1 { owner := some 1, waitingList := [], lockCount := 1 }
    { count := 0, maxCount := 1, waitingList := [] }
    { length := 1, itemSize := 4, count := 1, readOfs := 0, writeOfs := 0,
      senderWaitList := [], receiverWaitList := [] }
    { id := 2, priority := 2, basePriority := 2, state := TaskState.running,
      blockedOn := none, blockedOnType := SyncType.none }
    7 rfl (by decide) rfl (by decide)).2.2.2.1

end VRTOS
